import Mathlib

/-!
Verification of the error/diagnostics core of the repository
(`src/aten/src/ATen/core/Error.h`, C++ namespace `at`, here `Aten` since
`at` is a Lean keyword).

The header declares the data layout of `at::Error` (fields `msg_stack_`,
`backtrace_`, `msg_`, `msg_without_backtrace_`, `caller_`) and gives inline
bodies for `msg_stack()`, `what()`, `caller()` and `what_without_backtrace()`.
The bodies of the three constructors, `AppendMessage`, `msg()`,
`msg_without_backtrace()`, the `SourceLocation` stream operator and the
`Warning` members live in a translation unit that is not part of the excerpt;
those are modelled from the specification (each such definition says so in
its doc comment).
-/

namespace Aten

/-- Struct `at::SourceLocation`: function name, file name, line number
(fields from the header, `Error.h` lines 58-63). -/
structure SourceLocation where
  function : String
  file : String
  line : Nat
deriving DecidableEq, Repr

/-- Modelled from the spec: the body of
`operator<<(std::ostream&, const SourceLocation&)` is not under `src/`
(only the declaration is). Spec 4.1: renders the three fields in the fixed
layout `"<function> at <file>:<line>"`. -/
def SourceLocation.render (loc : SourceLocation) : String :=
  loc.function ++ " at " ++ loc.file ++ ":" ++ toString loc.line

/-- Modelled from the spec: the fixed delimiter separating message-stack
entries (spec 3 and Scenario B: a newline). -/
def msgDelimiter : String := "\n"

/-- Class `at::Error`: field layout from the header (`Error.h` lines 74-90).
`msg_` and `msg_without_backtrace_` are the cached derived strings;
`caller_` is the opaque correlation token (a `const void*`, modelled as an
opaque `Option Nat`, `none` for `nullptr`). -/
structure Error where
  msg_stack_ : List String
  backtrace_ : String
  msg_ : String
  msg_without_backtrace_ : String
  caller_ : Option Nat
deriving DecidableEq, Repr

/-- Modelled from the spec: derivation of the cached
`message_without_backtrace` string, recomputed whenever the stack changes
(spec 3: all entries of `message_stack` concatenated in stack order,
separated by the fixed delimiter). -/
def computeMsgWithoutBacktrace (stack : List String) : String :=
  String.intercalate msgDelimiter stack

/-- Modelled from the spec: derivation of the cached `full_message` string
(spec 3: `message_without_backtrace` with the backtrace appended when
present; Scenario A appends it directly). -/
def computeMsg (stack : List String) (backtrace : String) : String :=
  computeMsgWithoutBacktrace stack ++ backtrace

/-- Modelled from the spec: the body of
`Error::Error(const std::string& msg, const std::string& backtrace, const void* caller)`
is not under `src/`. Spec 4.2 `construct(message, backtrace, caller)`:
`message_stack = [message]`, backtrace stored as given, derived strings
computed immediately. -/
def Error.construct (msg backtrace : String) (caller : Option Nat) : Error :=
  { msg_stack_ := [msg]
    backtrace_ := backtrace
    msg_ := computeMsg [msg] backtrace
    msg_without_backtrace_ := computeMsgWithoutBacktrace [msg]
    caller_ := caller }

/-- Modelled from the spec: the body of
`Error::Error(SourceLocation source_location, const std::string& msg)`
is not under `src/`. Spec 4.2 `construct(location, message)`: same as
`construct` with no backtrace, the message first composed with the rendered
location as `message ++ " (" ++ render ++ ")"`; the location itself is not
retained (the `Error` layout has no location field). -/
def Error.constructFromLocation (loc : SourceLocation) (msg : String) : Error :=
  Error.construct (msg ++ " (" ++ loc.render ++ ")") "" none

/-- Modelled from the spec: the body of the assertion-style constructor
`Error::Error(const char* file, const int line, const char* condition, ...)`
is not under `src/`. Spec 4.2: composes a stack entry of the shape
`"<condition_text> CHECK FAILED: <message>"` with file/line folded into the
rendered text, then behaves like `construct`. -/
def Error.constructAssert (file : String) (line : Nat) (condition msg backtrace : String)
    (caller : Option Nat) : Error :=
  Error.construct
    (condition ++ " CHECK FAILED at " ++ file ++ ":" ++ toString line ++ ": " ++ msg)
    backtrace caller

/-- Modelled from the spec: the body of
`Error::AppendMessage(const std::string& msg)` is not under `src/`.
Spec 4.2 `append_message(extra)`: pushes `extra` onto the end of
`message_stack` and recomputes both derived strings atomically. -/
def Error.AppendMessage (e : Error) (msg : String) : Error :=
  let stack := e.msg_stack_ ++ [msg]
  { e with
    msg_stack_ := stack
    msg_ := computeMsg stack e.backtrace_
    msg_without_backtrace_ := computeMsgWithoutBacktrace stack }

/-- Modelled from the spec: the body of `Error::msg()` is not under `src/`.
Spec 4.2 `full_message()`: returns the cached full message. -/
def Error.msg (e : Error) : String := e.msg_

/-- Modelled from the spec: the body of `Error::msg_without_backtrace()` is
not under `src/`. Spec 4.2 `message_without_backtrace()`: returns the cached
message-only string. -/
def Error.msg_without_backtrace (e : Error) : String := e.msg_without_backtrace_

/-- Accessor `Error::msg_stack()` (inline in the header): returns `msg_stack_`. -/
def Error.msg_stack (e : Error) : List String := e.msg_stack_

/-- Accessor `Error::what()` (inline in the header): returns `msg_.c_str()`. -/
def Error.what (e : Error) : String := e.msg_

/-- Accessor `Error::what_without_backtrace()` (inline in the header): returns
`msg_without_backtrace_.c_str()`. -/
def Error.what_without_backtrace (e : Error) : String := e.msg_without_backtrace_

/-- Accessor `Error::caller()` (inline in the header): returns `caller_`. -/
def Error.caller (e : Error) : Option Nat := e.caller_

/-- A finite sequence of `AppendMessage` calls, applied in call order. -/
def appendAll (e : Error) (msgs : List String) : Error :=
  msgs.foldl Error.AppendMessage e

/-- A call to `Error::msg()` observed with explicit state passing: the
returned text paired with the object state after the call. The method is
declared `const` in the header and (spec 4.2) returns the cached full
message with no side effect, so the state component is the unchanged
object. -/
def Error.msgCall (e : Error) : String × Error := (e.msg, e)

/-- A call to `Error::msg_without_backtrace()` observed with explicit state
passing, like `Error.msgCall` (`const` method reading the cache). -/
def Error.msg_without_backtraceCall (e : Error) : String × Error :=
  (e.msg_without_backtrace, e)

/-- Call of `AppendMessage` on the first of two coexisting `Error` objects.
The header gives `Error` no static data members: all message state
(`msg_stack_`, `backtrace_`, `msg_`, `msg_without_backtrace_`, `caller_`)
consists of per-instance owned values, so a member call on one object acts
on that object alone; this is the embedding of that call in a two-object
state. -/
def appendToFirst (p : Error × Error) (msg : String) : Error × Error :=
  (p.1.AppendMessage msg, p.2)

/-- The values a `Warning::handler_t` function pointer can take: the
default `Warning::print_warning`, or some user-supplied handler
(distinguished by an opaque identity, since function pointers compare by
identity). -/
inductive WarningHandler where
  | print_warning : WarningHandler
  | custom : Nat → WarningHandler
deriving DecidableEq, Repr

/-- The process-wide state of `at::Warning`: the single static field
`warning_handler_` (header lines 131-151). -/
structure WarningState where
  warning_handler_ : WarningHandler
deriving DecidableEq, Repr

/-- Modelled from the spec: the initializer of `Warning::warning_handler_`
is not under `src/`. Spec 3: `current_handler` defaults to the built-in
printer (`print_warning`, per the header doc comment on it). -/
def initialWarningState : WarningState :=
  { warning_handler_ := WarningHandler.print_warning }

/-- One observable handler invocation: which handler ran, with which
source location and message. -/
structure Invocation where
  handler : WarningHandler
  location : SourceLocation
  message : String
deriving DecidableEq, Repr

/-- The two operations of the `Warning` interface. -/
inductive WarningOp where
  | set_warning_handler : WarningHandler → WarningOp
  | warn : SourceLocation → String → WarningOp
deriving DecidableEq, Repr

/-- Modelled from the spec: the bodies of `Warning::warn` and
`Warning::set_warning_handler` are not under `src/`. Spec 4.3:
`emit_warning(location, text)` invokes `current_handler(location, text)`
(recorded here as an `Invocation`); `set_handler(new_handler)` replaces
`current_handler` and invokes nothing. -/
def warnStep (s : WarningState) : WarningOp → WarningState × List Invocation
  | WarningOp.set_warning_handler h => ({ warning_handler_ := h }, [])
  | WarningOp.warn loc msg =>
      (s, [{ handler := s.warning_handler_, location := loc, message := msg }])

/-- Runs a sequence of `Warning` operations from a state, collecting the
handler invocations in order. -/
def warnRun (s : WarningState) : List WarningOp → List Invocation
  | [] => []
  | op :: ops => (warnStep s op).2 ++ warnRun (warnStep s op).1 ops

/-- The states of `at::Error` reachable through its public interface:
one of the three constructors followed by any number of `AppendMessage`
calls (the accessors do not mutate). -/
inductive Reachable : Error → Prop
  | construct (msg backtrace : String) (caller : Option Nat) :
      Reachable (Error.construct msg backtrace caller)
  | constructFromLocation (loc : SourceLocation) (msg : String) :
      Reachable (Error.constructFromLocation loc msg)
  | constructAssert (file : String) (line : Nat) (condition msg backtrace : String)
      (caller : Option Nat) :
      Reachable (Error.constructAssert file line condition msg backtrace caller)
  | append (e : Error) (msg : String) :
      Reachable e → Reachable (e.AppendMessage msg)

/-- The cache invariant: both derived string fields agree with their
recomputation from `msg_stack_` and `backtrace_`. -/
def CachesValid (e : Error) : Prop :=
  e.msg_without_backtrace_ = computeMsgWithoutBacktrace e.msg_stack_ ∧
  e.msg_ = computeMsg e.msg_stack_ e.backtrace_

theorem construct_cachesValid (msg backtrace : String) (caller : Option Nat) :
    CachesValid (Error.construct msg backtrace caller) :=
  ⟨rfl, rfl⟩

theorem appendMessage_cachesValid (e : Error) (msg : String) :
    CachesValid (e.AppendMessage msg) :=
  ⟨rfl, rfl⟩

theorem reachable_cachesValid {e : Error} (h : Reachable e) : CachesValid e := by
  induction h with
  | construct msg backtrace caller => exact construct_cachesValid msg backtrace caller
  | constructFromLocation loc msg => exact construct_cachesValid _ _ _
  | constructAssert file line condition msg backtrace caller =>
      exact construct_cachesValid _ _ _
  | append e msg _ _ => exact appendMessage_cachesValid e msg

theorem appendMessage_msg_stack (e : Error) (msg : String) :
    (e.AppendMessage msg).msg_stack_ = e.msg_stack_ ++ [msg] := rfl

theorem appendMessage_backtrace (e : Error) (msg : String) :
    (e.AppendMessage msg).backtrace_ = e.backtrace_ := rfl

theorem appendAll_msg_stack (e : Error) (msgs : List String) :
    (appendAll e msgs).msg_stack_ = e.msg_stack_ ++ msgs := by
  induction msgs generalizing e with
  | nil => simp [appendAll]
  | cons m ms ih =>
      simp only [appendAll, List.foldl_cons] at *
      rw [ih (e.AppendMessage m), appendMessage_msg_stack]
      simp

theorem appendAll_backtrace (e : Error) (msgs : List String) :
    (appendAll e msgs).backtrace_ = e.backtrace_ := by
  induction msgs generalizing e with
  | nil => rfl
  | cons m ms ih =>
      simp only [appendAll, List.foldl_cons] at *
      rw [ih (e.AppendMessage m), appendMessage_backtrace]

theorem appendAll_reachable {e : Error} (h : Reachable e) (msgs : List String) :
    Reachable (appendAll e msgs) := by
  induction msgs generalizing e with
  | nil => exact h
  | cons m ms ih =>
      simp only [appendAll, List.foldl_cons] at *
      exact ih (Reachable.append e m h)

theorem warnRun_const_handler (h : WarningHandler) (ops : List WarningOp)
    (hset : ∀ h2, WarningOp.set_warning_handler h2 ∉ ops) :
    ∀ inv ∈ warnRun { warning_handler_ := h } ops, inv.handler = h := by
  induction ops with
  | nil => intro inv hmem; simp [warnRun] at hmem
  | cons op ops ih =>
      intro inv hmem
      cases op with
      | set_warning_handler h2 =>
          exact absurd (List.mem_cons_self _ _) (hset h2)
      | warn loc m =>
          simp only [warnRun, warnStep, List.mem_append, List.mem_singleton] at hmem
          rcases hmem with h1 | h2
          · rw [h1]
          · exact ih (fun h3 hm => hset h3 (List.mem_cons_of_mem _ hm)) inv h2

/-- Claim C1: For every `Error` built by the general constructor and every
finite sequence of `AppendMessage` calls applied after construction,
`msg_without_backtrace()` equals the concatenation of all stack fragments
(the original construction message first, then each appended message in
call order) joined by the one fixed delimiter. -/
theorem AppendMessage_msg_without_backtrace_joins_stack
    (msg backtrace : String) (caller : Option Nat) (msgs : List String) :
    (appendAll (Error.construct msg backtrace caller) msgs).msg_without_backtrace
      = String.intercalate msgDelimiter (msg :: msgs) := by
  have h := reachable_cachesValid
    (appendAll_reachable (Reachable.construct msg backtrace caller) msgs)
  simp only [Error.msg_without_backtrace, h.1, appendAll_msg_stack]
  rfl

/-- Claim C2: For every `Error` constructed with a (non-empty) backtrace
and after any number of `AppendMessage` calls, `msg()` equals
`msg_without_backtrace()` with the backtrace appended exactly once: the
backtrace neither duplicates nor disappears, after construction and after
every `AppendMessage`. -/
theorem msg_eq_msg_without_backtrace_append_backtrace
    (msg backtrace : String) (caller : Option Nat) (msgs : List String)
    (hbt : backtrace ≠ "") :
    (appendAll (Error.construct msg backtrace caller) msgs).msg
      = (appendAll (Error.construct msg backtrace caller) msgs).msg_without_backtrace
          ++ backtrace := by
  have h := reachable_cachesValid
    (appendAll_reachable (Reachable.construct msg backtrace caller) msgs)
  simp only [Error.msg, Error.msg_without_backtrace, h.1, h.2, computeMsg,
    appendAll_backtrace]
  rfl

/-- Witness for claim C2 at message "tensor size mismatch", backtrace
"[bt]", one appended message. -/
theorem msg_eq_msg_without_backtrace_append_backtrace_witness :
    (appendAll (Error.construct "tensor size mismatch" "[bt]" none)
        ["while running op Conv2d"]).msg
      = (appendAll (Error.construct "tensor size mismatch" "[bt]" none)
          ["while running op Conv2d"]).msg_without_backtrace ++ "[bt]" :=
  msg_eq_msg_without_backtrace_append_backtrace "tensor size mismatch" "[bt]" none
    ["while running op Conv2d"] (by decide)

/-- Claim C3: For every `Error` constructed without a backtrace — via the
general constructor with the empty backtrace, and in particular via the
`SourceLocation` constructor — and after any number of `AppendMessage`
calls, `msg()` equals `msg_without_backtrace()` exactly, with no extra
backtrace section. -/
theorem msg_eq_msg_without_backtrace_of_no_backtrace
    (msg msg2 : String) (caller : Option Nat) (loc : SourceLocation)
    (msgs : List String) :
    ((appendAll (Error.construct msg "" caller) msgs).msg
        = (appendAll (Error.construct msg "" caller) msgs).msg_without_backtrace)
    ∧ ((appendAll (Error.constructFromLocation loc msg2) msgs).msg
        = (appendAll (Error.constructFromLocation loc msg2) msgs).msg_without_backtrace) := by
  constructor
  · have h := reachable_cachesValid
      (appendAll_reachable (Reachable.construct msg "" caller) msgs)
    simp only [Error.msg, Error.msg_without_backtrace, h.1, h.2, computeMsg,
      appendAll_backtrace]
    simp [Error.construct]
  · have h := reachable_cachesValid
      (appendAll_reachable (Reachable.constructFromLocation loc msg2) msgs)
    simp only [Error.msg, Error.msg_without_backtrace, h.1, h.2, computeMsg,
      appendAll_backtrace]
    simp [Error.constructFromLocation, Error.construct]

/-- Claim C4: Each single `AppendMessage` call (with any string, the empty
one included) grows `msg_stack()` by exactly one entry, and no sequence of
operations of the class ever shrinks it. -/
theorem AppendMessage_grows_msg_stack_by_one
    (e : Error) (msg : String) (msgs : List String) :
    (e.AppendMessage msg).msg_stack.length = e.msg_stack.length + 1
    ∧ e.msg_stack.length ≤ (appendAll e msgs).msg_stack.length := by
  constructor
  · simp [Error.msg_stack, appendMessage_msg_stack]
  · simp [Error.msg_stack, appendAll_msg_stack]

/-- Claim C5: Every `Error` produced by any of the three constructors has a
non-empty `msg_stack()` (it contains at least the original message), and
every subsequent operation preserves non-emptiness. -/
theorem reachable_msg_stack_ne_nil (e : Error) (h : Reachable e) :
    e.msg_stack ≠ [] := by
  induction h with
  | construct msg backtrace caller => simp [Error.msg_stack, Error.construct]
  | constructFromLocation loc msg =>
      simp [Error.msg_stack, Error.constructFromLocation, Error.construct]
  | constructAssert file line condition msg backtrace caller =>
      simp [Error.msg_stack, Error.constructAssert, Error.construct]
  | append e msg _ ih =>
      simp only [Error.msg_stack, appendMessage_msg_stack]
      simp

/-- Witness for claim C5 at a concrete reachable error. -/
theorem reachable_msg_stack_ne_nil_witness :
    (Error.construct "boom" "trace" none).msg_stack ≠ [] :=
  reachable_msg_stack_ne_nil _ (Reachable.construct "boom" "trace" none)

/-- Claim C6: The `Error` constructed from a `SourceLocation` and a message
has exactly one `msg_stack()` entry, that entry is the message followed by
" (", the rendered location and ")", no backtrace is stored, and the
location is not retained as a separate field (the `Error` structure has no
location field; the location reaches the object only inside the composed
string). -/
theorem constructFromLocation_stack_entry (loc : SourceLocation) (msg : String) :
    (Error.constructFromLocation loc msg).msg_stack
        = [msg ++ " (" ++ loc.render ++ ")"]
    ∧ (Error.constructFromLocation loc msg).msg_stack.length = 1
    ∧ (Error.constructFromLocation loc msg).backtrace_ = "" :=
  ⟨rfl, rfl, rfl⟩

/-- Claim C7: After `Warning::set_warning_handler(h)`, every subsequent
`Warning::warn` call invokes `h` on the given location and message, as long
as no further `set_warning_handler` call occurs: in particular the
previously installed handler (the default `print_warning` included) is
never invoked again unless reinstalled. -/
theorem warn_after_set_invokes_new_handler
    (s : WarningState) (h : WarningHandler) (ops : List WarningOp)
    (hset : ∀ h2, WarningOp.set_warning_handler h2 ∉ ops)
    (inv : Invocation)
    (hmem : inv ∈ warnRun (warnStep s (WarningOp.set_warning_handler h)).1 ops) :
    inv.handler = h :=
  warnRun_const_handler h ops hset inv hmem

/-- Witness for claim C7: from the initial state, install `custom 7`, then
one `warn`; the recorded invocation used `custom 7` (not `print_warning`). -/
theorem warn_after_set_invokes_new_handler_witness :
    (Invocation.mk (WarningHandler.custom 7)
      (SourceLocation.mk "f" "w.cc" 3) "careful").handler
      = WarningHandler.custom 7 :=
  warn_after_set_invokes_new_handler initialWarningState (WarningHandler.custom 7)
    [WarningOp.warn (SourceLocation.mk "f" "w.cc" 3) "careful"]
    (by intro h2; simp)
    (Invocation.mk (WarningHandler.custom 7) (SourceLocation.mk "f" "w.cc" 3) "careful")
    (by decide)

/-- Claim C8: For every `Error`, calling `msg()` or
`msg_without_backtrace()` repeatedly with no intervening mutation returns
identical text each time and leaves the object state unchanged (the values
are read from the precomputed caches). -/
theorem msg_calls_idempotent_and_pure (e : Error) :
    (e.msgCall.1 = e.msgCall.2.msgCall.1 ∧ e.msgCall.2 = e)
    ∧ (e.msg_without_backtraceCall.1
          = e.msg_without_backtraceCall.2.msg_without_backtraceCall.1
        ∧ e.msg_without_backtraceCall.2 = e) :=
  ⟨⟨rfl, rfl⟩, ⟨rfl, rfl⟩⟩

/-- Claim C9: For every pair of `Error` values, calling `AppendMessage` on
one leaves the other's `msg_stack()`, `msg()` and `msg_without_backtrace()`
unchanged: the two instances share no mutable state (the header gives
`Error` only per-instance, owned fields). -/
theorem AppendMessage_leaves_other_error_unchanged
    (e1 e2 : Error) (msg : String) :
    (appendToFirst (e1, e2) msg).2.msg_stack = e2.msg_stack
    ∧ (appendToFirst (e1, e2) msg).2.msg = e2.msg
    ∧ (appendToFirst (e1, e2) msg).2.msg_without_backtrace
        = e2.msg_without_backtrace :=
  ⟨rfl, rfl, rfl⟩

/-- Claim C10: In every reachable `Error` state, `what()` returns exactly
the text of `msg()` and `what_without_backtrace()` exactly the text of
`msg_without_backtrace()`, and the cached fields behind the `noexcept`
accessors never drift from the derived-message definitions recomputed from
`msg_stack_` and `backtrace_`. -/
theorem what_agrees_with_msg (e : Error) (h : Reachable e) :
    e.what = e.msg
    ∧ e.what_without_backtrace = e.msg_without_backtrace
    ∧ e.what = computeMsg e.msg_stack_ e.backtrace_
    ∧ e.what_without_backtrace = computeMsgWithoutBacktrace e.msg_stack_ := by
  have hc := reachable_cachesValid h
  exact ⟨rfl, rfl, hc.2, hc.1⟩

/-- Witness for claim C10 at a concrete reachable error. -/
theorem what_agrees_with_msg_witness :
    ((Error.construct "x" "y" none).AppendMessage "z").what
        = ((Error.construct "x" "y" none).AppendMessage "z").msg
    ∧ ((Error.construct "x" "y" none).AppendMessage "z").what_without_backtrace
        = ((Error.construct "x" "y" none).AppendMessage "z").msg_without_backtrace
    ∧ ((Error.construct "x" "y" none).AppendMessage "z").what
        = computeMsg ((Error.construct "x" "y" none).AppendMessage "z").msg_stack_
            ((Error.construct "x" "y" none).AppendMessage "z").backtrace_
    ∧ ((Error.construct "x" "y" none).AppendMessage "z").what_without_backtrace
        = computeMsgWithoutBacktrace
            ((Error.construct "x" "y" none).AppendMessage "z").msg_stack_ :=
  what_agrees_with_msg _
    (Reachable.append _ "z" (Reachable.construct "x" "y" none))

end Aten
